import Mathlib

/-
Verification of GrSamplerState (src/third_party/skia/include/gpu/GrSamplerState.h).

The class is a plain value record.  We embed it as a Lean structure.  C++
object members that a constructor body leaves unassigned hold indeterminate
values; we model such members with `Option` (`none` = indeterminate, written
by no assignment yet).  The three radial2 members appear in every
constructor's member-initializer list with `()` (value-initialization), so
they are always defined and are modelled as plain fields.

GrMatrix, GrRect, GrScalar and GrAssert come from headers that are not part
of the sources (GrMatrix.h, GrTypes.h); those are modelled from the spec and
carry a doc comment saying so.
-/

/-- Modelled from the spec: the scalar numeric type (GrScalar, from the
missing GrTypes.h/GrScalar.h) is fixed-point or floating-point, supports
equality and an identity constant; we model it as the rationals. -/
abbrev GrScalar := ℚ

/-- Modelled from the spec: the scalar identity/one constant used by the
degeneracy check. -/
def GR_Scalar1 : GrScalar := 1

/-- Modelled from the spec: conversion of a small integer to the scalar
type (SkIntToScalar, from the missing Skia headers). -/
def SkIntToScalar (n : ℤ) : GrScalar := (n : ℚ)

/-- Modelled from the missing Skia headers: SkBool8 is a one-byte boolean
storage type; value-initialization yields false. -/
abbrev SkBool8 := Bool

/-- Modelled from the missing Skia headers: SkToBool turns the stored
boolean byte into a bool. -/
def SkToBool (b : SkBool8) : Bool := b

/-- Modelled from the spec: the matrix type (GrMatrix.h is not among the
sources).  A 2D projective transform: it supports identity-set,
pre-multiply/concatenate, and apply-to-point, with points as column vectors
transformed on the left (t becomes X*t). -/
structure GrMatrix where
  m00 : ℚ
  m01 : ℚ
  m02 : ℚ
  m10 : ℚ
  m11 : ℚ
  m12 : ℚ
  m20 : ℚ
  m21 : ℚ
  m22 : ℚ
deriving DecidableEq, Repr

/-- Modelled from the spec: matrix product (row-into-column), the
composition used by preConcat. -/
def GrMatrix.mul (a b : GrMatrix) : GrMatrix where
  m00 := a.m00 * b.m00 + a.m01 * b.m10 + a.m02 * b.m20
  m01 := a.m00 * b.m01 + a.m01 * b.m11 + a.m02 * b.m21
  m02 := a.m00 * b.m02 + a.m01 * b.m12 + a.m02 * b.m22
  m10 := a.m10 * b.m00 + a.m11 * b.m10 + a.m12 * b.m20
  m11 := a.m10 * b.m01 + a.m11 * b.m11 + a.m12 * b.m21
  m12 := a.m10 * b.m02 + a.m11 * b.m12 + a.m12 * b.m22
  m20 := a.m20 * b.m00 + a.m21 * b.m10 + a.m22 * b.m20
  m21 := a.m20 * b.m01 + a.m21 * b.m11 + a.m22 * b.m21
  m22 := a.m20 * b.m02 + a.m21 * b.m12 + a.m22 * b.m22

/-- Modelled from the spec: the identity matrix, the result of
GrMatrix::setIdentity. -/
def GrMatrix.identity : GrMatrix := ⟨1, 0, 0, 0, 1, 0, 0, 0, 1⟩

/-- Modelled from the spec: M.preConcat(m) replaces M by M*m (source
comment: after the call the new matrix is M*m). -/
def GrMatrix.preConcat (a b : GrMatrix) : GrMatrix := a.mul b

/-- Modelled from the spec: apply the transform to a point given in
homogeneous coordinates as a column vector, t becomes X*t. -/
def GrMatrix.applyTo (x : GrMatrix) (v : ℚ × ℚ × ℚ) : ℚ × ℚ × ℚ :=
  (x.m00 * v.1 + x.m01 * v.2.1 + x.m02 * v.2.2,
   x.m10 * v.1 + x.m11 * v.2.1 + x.m12 * v.2.2,
   x.m20 * v.1 + x.m21 * v.2.1 + x.m22 * v.2.2)

/-- Modelled from the spec: the rectangle type (GrRect, from the missing
headers) with component access. -/
structure GrRect where
  fLeft : GrScalar
  fTop : GrScalar
  fRight : GrScalar
  fBottom : GrScalar
deriving DecidableEq, Repr

/-- Modelled from the spec: GrRect::setEmpty yields the all-zero rectangle
(zero right edge is the empty/unset sentinel). -/
def GrRect.emptyRect : GrRect := ⟨0, 0, 0, 0⟩

/-- Modelled from the spec: right-edge component access, used as the
has-domain sentinel. -/
def GrRect.right (r : GrRect) : GrScalar := r.fRight

/-- MAX_KERNEL_WIDTH from the header. -/
def MAX_KERNEL_WIDTH : ℕ := 25

/-- GrSamplerState::Filter. -/
inductive GrSamplerState.Filter where
  | kNearest_Filter
  | kBilinear_Filter
  | k4x4Downsample_Filter
  | kConvolution_Filter
deriving DecidableEq, Repr

/-- GrSamplerState::SampleMode. -/
inductive GrSamplerState.SampleMode where
  | kNormal_SampleMode
  | kRadial_SampleMode
  | kRadial2_SampleMode
  | kSweep_SampleMode
deriving DecidableEq, Repr

/-- GrSamplerState::WrapMode. -/
inductive GrSamplerState.WrapMode where
  | kClamp_WrapMode
  | kRepeat_WrapMode
  | kMirror_WrapMode
deriving DecidableEq, Repr

open GrSamplerState.Filter GrSamplerState.SampleMode GrSamplerState.WrapMode in
/-- The data members of GrSamplerState.  `Option` marks members a
constructor may leave indeterminate (no assignment yet); the radial2 trio is
value-initialized by every member-initializer list and is plain.
fKernelWidth is a uint8_t, modelled as a natural below 256; fKernel is the
25-element float array, each cell individually defined or not. -/
structure GrSamplerState where
  fWrapX : Option GrSamplerState.WrapMode
  fWrapY : Option GrSamplerState.WrapMode
  fSampleMode : Option GrSamplerState.SampleMode
  fFilter : Option GrSamplerState.Filter
  fMatrix : Option GrMatrix
  fSwapRAndB : Option Bool
  fTextureDomain : Option GrRect
  fRadial2CenterX1 : GrScalar
  fRadial2Radius0 : GrScalar
  fRadial2PosRoot : SkBool8
  fKernelWidth : Option ℕ
  fImageIncrement : Option (ℚ × ℚ)
  fKernel : Fin MAX_KERNEL_WIDTH → Option ℚ

namespace GrSamplerState

open Filter SampleMode WrapMode

/-- The object state right after the member-initializer list common to all
five constructors ran: the radial2 members are value-initialized to zero /
false, every other member is still indeterminate. -/
def memberInit : GrSamplerState where
  fWrapX := none
  fWrapY := none
  fSampleMode := none
  fFilter := none
  fMatrix := none
  fSwapRAndB := none
  fTextureDomain := none
  fRadial2CenterX1 := 0
  fRadial2Radius0 := 0
  fRadial2PosRoot := false
  fKernelWidth := none
  fImageIncrement := none
  fKernel := fun _ => none

/-- setClampNoFilter (header lines 207-215). -/
def setClampNoFilter (s : GrSamplerState) : GrSamplerState :=
  { s with
    fWrapX := some kClamp_WrapMode
    fWrapY := some kClamp_WrapMode
    fSampleMode := some kNormal_SampleMode
    fFilter := some kNearest_Filter
    fMatrix := some GrMatrix.identity
    fTextureDomain := some GrRect.emptyRect
    fSwapRAndB := some false }

/-- Default constructor GrSamplerState() (lines 87-92): member-initializer
list, then setClampNoFilter(). -/
def mkDefault : GrSamplerState := setClampNoFilter memberInit

/-- Constructor GrSamplerState(Filter) (lines 94-104).  Note: its body does
not assign fSwapRAndB, which therefore stays indeterminate. -/
def mkFromFilter (filter : Filter) : GrSamplerState :=
  { memberInit with
    fWrapX := some kClamp_WrapMode
    fWrapY := some kClamp_WrapMode
    fSampleMode := some kNormal_SampleMode
    fFilter := some filter
    fMatrix := some GrMatrix.identity
    fTextureDomain := some GrRect.emptyRect }

/-- Constructor GrSamplerState(WrapMode, WrapMode, Filter) (lines 106-117). -/
def mkWrapFilter (wx wy : WrapMode) (filter : Filter) : GrSamplerState :=
  { memberInit with
    fWrapX := some wx
    fWrapY := some wy
    fSampleMode := some kNormal_SampleMode
    fFilter := some filter
    fMatrix := some GrMatrix.identity
    fSwapRAndB := some false
    fTextureDomain := some GrRect.emptyRect }

/-- Constructor GrSamplerState(WrapMode, WrapMode, const GrMatrix, Filter)
(lines 119-131). -/
def mkWrapMatrixFilter (wx wy : WrapMode) (matrix : GrMatrix)
    (filter : Filter) : GrSamplerState :=
  { memberInit with
    fWrapX := some wx
    fWrapY := some wy
    fSampleMode := some kNormal_SampleMode
    fFilter := some filter
    fMatrix := some matrix
    fSwapRAndB := some false
    fTextureDomain := some GrRect.emptyRect }

/-- Constructor GrSamplerState(WrapMode, WrapMode, SampleMode, const
GrMatrix, Filter) (lines 133-145). -/
def mkFull (wx wy : WrapMode) (sample : SampleMode) (matrix : GrMatrix)
    (filter : Filter) : GrSamplerState :=
  { memberInit with
    fWrapX := some wx
    fWrapY := some wy
    fSampleMode := some sample
    fMatrix := some matrix
    fFilter := some filter
    fSwapRAndB := some false
    fTextureDomain := some GrRect.emptyRect }

/-- getWrapX (line 147). -/
def getWrapX (s : GrSamplerState) : Option WrapMode := s.fWrapX

/-- getWrapY (line 148). -/
def getWrapY (s : GrSamplerState) : Option WrapMode := s.fWrapY

/-- getSampleMode (line 149). -/
def getSampleMode (s : GrSamplerState) : Option SampleMode := s.fSampleMode

/-- getMatrix (line 150). -/
def getMatrix (s : GrSamplerState) : Option GrMatrix := s.fMatrix

/-- getTextureDomain (line 151). -/
def getTextureDomain (s : GrSamplerState) : Option GrRect := s.fTextureDomain

/-- hasTextureDomain (line 152): SkIntToScalar(0) != fTextureDomain.right(). -/
def hasTextureDomain (s : GrSamplerState) : Option Bool :=
  s.fTextureDomain.map fun r => decide (SkIntToScalar 0 ≠ r.right)

/-- getFilter (line 153). -/
def getFilter (s : GrSamplerState) : Option Filter := s.fFilter

/-- getKernelWidth (line 154). -/
def getKernelWidth (s : GrSamplerState) : Option ℕ := s.fKernelWidth

/-- getKernel (line 155): read access to the 25-cell weight array. -/
def getKernel (s : GrSamplerState) : Fin MAX_KERNEL_WIDTH → Option ℚ :=
  s.fKernel

/-- getImageIncrement (line 156): read access to the 2-cell increment. -/
def getImageIncrement (s : GrSamplerState) : Option (ℚ × ℚ) :=
  s.fImageIncrement

/-- swapsRAndB (line 157). -/
def swapsRAndB (s : GrSamplerState) : Option Bool := s.fSwapRAndB

/-- isGradient (lines 159-163). -/
def isGradient (s : GrSamplerState) : Option Bool :=
  s.fSampleMode.map fun m =>
    decide (kRadial_SampleMode = m ∨ kRadial2_SampleMode = m ∨
            kSweep_SampleMode = m)

/-- setWrapX (line 165). -/
def setWrapX (s : GrSamplerState) (mode : WrapMode) : GrSamplerState :=
  { s with fWrapX := some mode }

/-- setWrapY (line 166). -/
def setWrapY (s : GrSamplerState) (mode : WrapMode) : GrSamplerState :=
  { s with fWrapY := some mode }

/-- setSampleMode (line 167). -/
def setSampleMode (s : GrSamplerState) (mode : SampleMode) : GrSamplerState :=
  { s with fSampleMode := some mode }

/-- setMatrix (line 174). -/
def setMatrix (s : GrSamplerState) (matrix : GrMatrix) : GrSamplerState :=
  { s with fMatrix := some matrix }

/-- setTextureDomain (line 181). -/
def setTextureDomain (s : GrSamplerState) (textureDomain : GrRect) :
    GrSamplerState :=
  { s with fTextureDomain := some textureDomain }

/-- setRAndBSwap (line 187). -/
def setRAndBSwap (s : GrSamplerState) (swap : Bool) : GrSamplerState :=
  { s with fSwapRAndB := some swap }

/-- preConcatMatrix (line 199): fMatrix.preConcat(matrix).  Reading an
indeterminate matrix is undefined, so an indeterminate matrix stays
indeterminate. -/
def preConcatMatrix (s : GrSamplerState) (matrix : GrMatrix) :
    GrSamplerState :=
  { s with fMatrix := s.fMatrix.map fun m => m.preConcat matrix }

/-- setFilter (line 205). -/
def setFilter (s : GrSamplerState) (filter : Filter) : GrSamplerState :=
  { s with fFilter := some filter }

/-- getRadial2CenterX1 (line 217). -/
def getRadial2CenterX1 (s : GrSamplerState) : GrScalar := s.fRadial2CenterX1

/-- getRadial2Radius0 (line 218). -/
def getRadial2Radius0 (s : GrSamplerState) : GrScalar := s.fRadial2Radius0

/-- isRadial2PosRoot (line 219): SkToBool(fRadial2PosRoot). -/
def isRadial2PosRoot (s : GrSamplerState) : Bool := SkToBool s.fRadial2PosRoot

/-- radial2IsDegenerate (line 222): GR_Scalar1 == fRadial2CenterX1. -/
def radial2IsDegenerate (s : GrSamplerState) : Bool :=
  decide (GR_Scalar1 = s.fRadial2CenterX1)

/-- setRadial2Params (lines 231-235). -/
def setRadial2Params (s : GrSamplerState) (centerX1 radius0 : GrScalar)
    (posRoot : Bool) : GrSamplerState :=
  { s with
    fRadial2CenterX1 := centerX1
    fRadial2Radius0 := radius0
    fRadial2PosRoot := posRoot }

/-- setConvolutionParams (lines 237-248).  kernelWidth is a C int; kernel a
possibly-null pointer to at least kernelWidth floats; imageIncrement a
possibly-null pointer to 2 floats.  GrAssert is modelled from the spec as a
fatal assertion (result `none`) when the width is outside
[0, MAX_KERNEL_WIDTH]; otherwise the width is stored into the uint8 field,
the first kernelWidth weights are copied when kernel is non-null, and the
increment pair is copied when non-null, else zero-filled. -/
def setConvolutionParams (s : GrSamplerState) (kernelWidth : ℤ)
    (kernel : Option (ℕ → ℚ)) (imageIncrement : Option (ℚ × ℚ)) :
    Option GrSamplerState :=
  if 0 ≤ kernelWidth ∧ kernelWidth ≤ (MAX_KERNEL_WIDTH : ℤ) then
    some { s with
      fKernelWidth := some (kernelWidth.toNat % 256)
      fKernel := fun i =>
        match kernel with
        | none => s.fKernel i
        | some f => if (i : ℕ) < kernelWidth.toNat then some (f i)
                    else s.fKernel i
      fImageIncrement := some (imageIncrement.getD (0, 0)) }
  else
    none

/-- The shared immutable default instance gClampNoFilter (line 273), a
default-constructed static. -/
def gClampNoFilter : GrSamplerState := mkDefault

/-- ClampNoFilter (lines 250-252). -/
def ClampNoFilter : GrSamplerState := gClampNoFilter

end GrSamplerState

open GrSamplerState GrSamplerState.Filter GrSamplerState.SampleMode GrSamplerState.WrapMode

/-- C4: for every GrSamplerState s, after s.setClampNoFilter() the wrapX,
wrapY, sampleMode, filter, matrix, textureDomain and swapsRAndB observables
are field-for-field identical to those of a default-constructed instance,
namely Clamp/Clamp/Normal/Nearest/identity/empty/false. -/
theorem setClampNoFilter_matches_default (s : GrSamplerState) :
    getWrapX (setClampNoFilter s) = getWrapX mkDefault ∧
    getWrapY (setClampNoFilter s) = getWrapY mkDefault ∧
    getSampleMode (setClampNoFilter s) = getSampleMode mkDefault ∧
    getFilter (setClampNoFilter s) = getFilter mkDefault ∧
    getMatrix (setClampNoFilter s) = getMatrix mkDefault ∧
    getTextureDomain (setClampNoFilter s) = getTextureDomain mkDefault ∧
    swapsRAndB (setClampNoFilter s) = swapsRAndB mkDefault ∧
    getWrapX mkDefault = some kClamp_WrapMode ∧
    getWrapY mkDefault = some kClamp_WrapMode ∧
    getSampleMode mkDefault = some kNormal_SampleMode ∧
    getFilter mkDefault = some kNearest_Filter ∧
    getMatrix mkDefault = some GrMatrix.identity ∧
    getTextureDomain mkDefault = some GrRect.emptyRect ∧
    swapsRAndB mkDefault = some false :=
  ⟨rfl, rfl, rfl, rfl, rfl, rfl, rfl, rfl, rfl, rfl, rfl, rfl, rfl, rfl⟩

/-- C5: setClampNoFilter only touches the wrap/sample/filter/matrix/domain/
swap members; the radial2 auxiliaries (centerX1, radius0, posRoot) and the
convolution auxiliaries (kernelWidth, kernel, imageIncrement) keep exactly
the values they held before the call. -/
theorem setClampNoFilter_frame (s : GrSamplerState) :
    getRadial2CenterX1 (setClampNoFilter s) = getRadial2CenterX1 s ∧
    getRadial2Radius0 (setClampNoFilter s) = getRadial2Radius0 s ∧
    isRadial2PosRoot (setClampNoFilter s) = isRadial2PosRoot s ∧
    getKernelWidth (setClampNoFilter s) = getKernelWidth s ∧
    getKernel (setClampNoFilter s) = getKernel s ∧
    getImageIncrement (setClampNoFilter s) = getImageIncrement s :=
  ⟨rfl, rfl, rfl, rfl, rfl, rfl⟩

/-- C3: the Filter-only constructor leaves fSwapRAndB unassigned, hence
indeterminate, while the default constructor defines it as false; every
other observable of the Filter-only constructor matches the default
construction except the caller-chosen filter.  This exhibits the code slip
behind the claim that no field is left indeterminate. -/
theorem mkFromFilter_swap_indeterminate :
    swapsRAndB (mkFromFilter kBilinear_Filter) = none ∧
    swapsRAndB mkDefault = some false ∧
    getWrapX (mkFromFilter kBilinear_Filter) = getWrapX mkDefault ∧
    getWrapY (mkFromFilter kBilinear_Filter) = getWrapY mkDefault ∧
    getSampleMode (mkFromFilter kBilinear_Filter) = getSampleMode mkDefault ∧
    getMatrix (mkFromFilter kBilinear_Filter) = getMatrix mkDefault ∧
    getTextureDomain (mkFromFilter kBilinear_Filter) =
      getTextureDomain mkDefault ∧
    getFilter (mkFromFilter kBilinear_Filter) = some kBilinear_Filter :=
  ⟨rfl, rfl, rfl, rfl, rfl, rfl, rfl, rfl⟩

/-- C10: every one of the five constructors value-initializes the three
radial2 members in its member-initializer list, so right after any
construction getRadial2CenterX1() and getRadial2Radius0() are zero and
isRadial2PosRoot() is false. -/
theorem constructors_value_initialize_radial2 :
    (getRadial2CenterX1 mkDefault = 0 ∧ getRadial2Radius0 mkDefault = 0 ∧
      isRadial2PosRoot mkDefault = false) ∧
    (∀ f, getRadial2CenterX1 (mkFromFilter f) = 0 ∧
      getRadial2Radius0 (mkFromFilter f) = 0 ∧
      isRadial2PosRoot (mkFromFilter f) = false) ∧
    (∀ wx wy f, getRadial2CenterX1 (mkWrapFilter wx wy f) = 0 ∧
      getRadial2Radius0 (mkWrapFilter wx wy f) = 0 ∧
      isRadial2PosRoot (mkWrapFilter wx wy f) = false) ∧
    (∀ wx wy m f, getRadial2CenterX1 (mkWrapMatrixFilter wx wy m f) = 0 ∧
      getRadial2Radius0 (mkWrapMatrixFilter wx wy m f) = 0 ∧
      isRadial2PosRoot (mkWrapMatrixFilter wx wy m f) = false) ∧
    (∀ wx wy sm m f, getRadial2CenterX1 (mkFull wx wy sm m f) = 0 ∧
      getRadial2Radius0 (mkFull wx wy sm m f) = 0 ∧
      isRadial2PosRoot (mkFull wx wy sm m f) = false) :=
  ⟨⟨rfl, rfl, rfl⟩, fun _ => ⟨rfl, rfl, rfl⟩, fun _ _ _ => ⟨rfl, rfl, rfl⟩,
   fun _ _ _ _ => ⟨rfl, rfl, rfl⟩, fun _ _ _ _ _ => ⟨rfl, rfl, rfl⟩⟩

/-- C9: setRadial2Params stores its three arguments, observable through
getRadial2CenterX1, getRadial2Radius0 and isRadial2PosRoot;
radial2IsDegenerate is true exactly when the stored centerX1 equals the
scalar one constant; in particular setRadial2Params(1, 1/2, true) on the
default state yields a degenerate positive-root configuration. -/
theorem setRadial2Params_spec (s : GrSamplerState) (c r0 : GrScalar)
    (p : Bool) :
    getRadial2CenterX1 (setRadial2Params s c r0 p) = c ∧
    getRadial2Radius0 (setRadial2Params s c r0 p) = r0 ∧
    isRadial2PosRoot (setRadial2Params s c r0 p) = p ∧
    (radial2IsDegenerate (setRadial2Params s c r0 p) = true ↔
      c = GR_Scalar1) ∧
    GR_Scalar1 = 1 ∧
    radial2IsDegenerate (setRadial2Params mkDefault GR_Scalar1 (1/2) true) =
      true ∧
    isRadial2PosRoot (setRadial2Params mkDefault GR_Scalar1 (1/2) true) =
      true := by
  refine ⟨rfl, rfl, rfl, ?_, rfl, ?_, rfl⟩
  · simp [radial2IsDegenerate, setRadial2Params, eq_comm]
  · simp [radial2IsDegenerate, setRadial2Params]

/-- C7: setTextureDomain stores the given rectangle verbatim, and
hasTextureDomain is false exactly when the stored domain rectangle has a
zero right edge and true whenever the right edge is non-zero, degenerate or
negative rectangles included. -/
theorem textureDomain_spec (s : GrSamplerState) (r : GrRect) :
    getTextureDomain (setTextureDomain s r) = some r ∧
    (hasTextureDomain (setTextureDomain s r) = some false ↔
      GrRect.right r = 0) ∧
    (hasTextureDomain (setTextureDomain s r) = some true ↔
      GrRect.right r ≠ 0) := by
  refine ⟨rfl, ?_, ?_⟩
  · simp only [hasTextureDomain, setTextureDomain, Option.map_some',
      Option.some_inj, decide_eq_false_iff_not, SkIntToScalar, Int.cast_zero,
      ne_eq, not_not]
    exact eq_comm
  · simp only [hasTextureDomain, setTextureDomain, Option.map_some',
      Option.some_inj, decide_eq_true_eq, SkIntToScalar, Int.cast_zero, ne_eq]
    exact not_congr eq_comm

/-- C8: for a state whose stored sampleMode is m, isGradient() is true
exactly when m is Radial, Radial2 or Sweep, and false when m is Normal;
moreover after constructing with (Repeat, Clamp, Bilinear) and calling
setSampleMode(Sweep), isGradient() is true while getFilter() is still
Bilinear and getWrapX() still Repeat. -/
theorem isGradient_spec (s : GrSamplerState) (m : GrSamplerState.SampleMode)
    (h : getSampleMode s = some m) :
    (isGradient s = some true ↔
      (m = kRadial_SampleMode ∨ m = kRadial2_SampleMode ∨
       m = kSweep_SampleMode)) ∧
    (m = kNormal_SampleMode → isGradient s = some false) ∧
    isGradient (setSampleMode
      (mkWrapFilter kRepeat_WrapMode kClamp_WrapMode kBilinear_Filter)
      kSweep_SampleMode) = some true ∧
    getFilter (setSampleMode
      (mkWrapFilter kRepeat_WrapMode kClamp_WrapMode kBilinear_Filter)
      kSweep_SampleMode) = some kBilinear_Filter ∧
    getWrapX (setSampleMode
      (mkWrapFilter kRepeat_WrapMode kClamp_WrapMode kBilinear_Filter)
      kSweep_SampleMode) = some kRepeat_WrapMode := by
  have hm : s.fSampleMode = some m := h
  refine ⟨?_, ?_, rfl, rfl, rfl⟩
  · simp only [isGradient, hm, Option.map_some, Option.some_inj]
    cases m <;> simp
  · rintro rfl
    simp [isGradient, hm]

/-- Witness for C8: after setSampleMode(Sweep) on the default state
isGradient() evaluates to true, and on the default state itself (stored
mode Normal) it evaluates to false. -/
theorem isGradient_spec_w :
    isGradient (setSampleMode mkDefault kSweep_SampleMode) = some true ∧
    isGradient mkDefault = some false :=
  ⟨(isGradient_spec (setSampleMode mkDefault kSweep_SampleMode)
      kSweep_SampleMode rfl).1.mpr (Or.inr (Or.inr rfl)),
   (isGradient_spec mkDefault kNormal_SampleMode rfl).2.1 rfl⟩

/-- C6: if the stored matrix is A, preConcatMatrix(B) stores exactly A*B,
and applying A*B to any point (as a column vector on the left) agrees with
applying B first and then A. -/
theorem preConcatMatrix_spec (s : GrSamplerState) (a b : GrMatrix)
    (h : getMatrix s = some a) :
    getMatrix (preConcatMatrix s b) = some (a.mul b) ∧
    ∀ v : ℚ × ℚ × ℚ, (a.mul b).applyTo v = a.applyTo (b.applyTo v) := by
  have hm : s.fMatrix = some a := h
  constructor
  · simp [getMatrix, preConcatMatrix, hm, GrMatrix.preConcat]
  · rintro ⟨x, y, w⟩
    simp only [GrMatrix.mul, GrMatrix.applyTo, Prod.mk.injEq]
    refine ⟨by ring, by ring, by ring⟩

/-- Witness for C6: a concrete pre-concatenation, with the stored product
checked by evaluation. -/
theorem preConcatMatrix_spec_w :
    getMatrix (preConcatMatrix
        (setMatrix mkDefault ⟨1, 2, 3, 4, 5, 6, 7, 8, 9⟩)
        ⟨2, 0, 1, 0, 3, 0, 1, 1, 1⟩) =
      some (GrMatrix.mul ⟨1, 2, 3, 4, 5, 6, 7, 8, 9⟩
        ⟨2, 0, 1, 0, 3, 0, 1, 1, 1⟩) :=
  (preConcatMatrix_spec (setMatrix mkDefault ⟨1, 2, 3, 4, 5, 6, 7, 8, 9⟩)
    ⟨1, 2, 3, 4, 5, 6, 7, 8, 9⟩ ⟨2, 0, 1, 0, 3, 0, 1, 1, 1⟩ rfl).1

/-- C1: for kernelWidth k in [0,25], setConvolutionParams succeeds; with a
non-null kernel the stored width is k and the first k weight cells equal the
input weights; with a null kernel the weight array is entirely unchanged
while the width still becomes k; a non-null increment pair is copied and a
null one zero-fills both stored components. -/
theorem setConvolutionParams_spec (s : GrSamplerState) (k : ℤ)
    (hk0 : 0 ≤ k) (hk1 : k ≤ 25) (f : ℕ → ℚ) (inc : Option (ℚ × ℚ)) :
    (∃ s1, setConvolutionParams s k (some f) inc = some s1 ∧
      getKernelWidth s1 = some k.toNat ∧
      ∀ i : Fin MAX_KERNEL_WIDTH, (i : ℕ) < k.toNat →
        getKernel s1 i = some (f i)) ∧
    (∃ s2, setConvolutionParams s k none inc = some s2 ∧
      getKernelWidth s2 = some k.toNat ∧ getKernel s2 = getKernel s) ∧
    (∀ a b : ℚ, ∃ s3,
      setConvolutionParams s k (some f) (some (a, b)) = some s3 ∧
      getImageIncrement s3 = some (a, b)) ∧
    (∃ s4, setConvolutionParams s k (some f) none = some s4 ∧
      getImageIncrement s4 = some (0, 0)) := by
  have hif : 0 ≤ k ∧ k ≤ (MAX_KERNEL_WIDTH : ℤ) := by
    refine ⟨hk0, ?_⟩
    simpa [MAX_KERNEL_WIDTH] using hk1
  have h256 : k.toNat % 256 = k.toNat := Nat.mod_eq_of_lt (by omega)
  have hc : (0 ≤ k ∧ k ≤ (MAX_KERNEL_WIDTH : ℤ)) = True := eq_true hif
  simp only [setConvolutionParams, hc, if_true]
  refine ⟨⟨_, rfl, ?_, ?_⟩, ⟨_, rfl, ?_, ?_⟩,
    fun a b => ⟨_, rfl, rfl⟩, ⟨_, rfl, rfl⟩⟩
  · simp [getKernelWidth, h256]
  · intro i hi
    simp [getKernel, hi]
  · simp [getKernelWidth, h256]
  · rfl

/-- Witness for C1: kernelWidth 2 with kernel weights 0,1 and increment
(3,4) on the default state stores that data in the first two weight cells. -/
theorem setConvolutionParams_spec_w :
    ∃ s1, setConvolutionParams mkDefault 2 (some fun i => (i : ℚ))
        (some (3, 4)) = some s1 ∧
      getKernelWidth s1 = some (Int.toNat 2) ∧
      ∀ i : Fin MAX_KERNEL_WIDTH, (i : ℕ) < Int.toNat 2 →
        getKernel s1 i = some ((i : ℕ) : ℚ) :=
  (setConvolutionParams_spec mkDefault 2 (by norm_num) (by norm_num)
    (fun i => (i : ℚ)) (some (3, 4))).1

/-- C2: setConvolutionParams accepts widths 0 and 25; any width outside
[0,25], such as 26, hits the fatal assertion instead of clamping; under the
precondition 0 <= kernelWidth <= 25 the assertion branch is unreachable. -/
theorem setConvolutionParams_bounds (s : GrSamplerState)
    (ker : Option (ℕ → ℚ)) (inc : Option (ℚ × ℚ)) :
    (setConvolutionParams s 0 ker inc).isSome = true ∧
    (setConvolutionParams s 25 ker inc).isSome = true ∧
    setConvolutionParams s 26 ker inc = none ∧
    (∀ k : ℤ, k < 0 ∨ (MAX_KERNEL_WIDTH : ℤ) < k →
      setConvolutionParams s k ker inc = none) ∧
    (∀ k : ℤ, 0 ≤ k → k ≤ (MAX_KERNEL_WIDTH : ℤ) →
      (setConvolutionParams s k ker inc).isSome = true) := by
  have h25 : (MAX_KERNEL_WIDTH : ℤ) = 25 := rfl
  refine ⟨?_, ?_, ?_, ?_, ?_⟩
  · rw [setConvolutionParams, if_pos (by omega)]
    rfl
  · rw [setConvolutionParams, if_pos (by omega)]
    rfl
  · rw [setConvolutionParams, if_neg (by omega)]
  · intro k hk
    rw [setConvolutionParams, if_neg (by omega)]
  · intro k hk0 hk1
    rw [setConvolutionParams, if_pos ⟨hk0, hk1⟩]
    rfl

/-- Witness for C2: width 26 on the default state is rejected while width
25 is accepted, via the bounds theorem at concrete inputs. -/
theorem setConvolutionParams_bounds_w :
    setConvolutionParams mkDefault 26 none none = none ∧
    (setConvolutionParams mkDefault 25 none none).isSome = true := by
  have h := setConvolutionParams_bounds mkDefault none none
  exact ⟨h.2.2.2.1 26 (by norm_num [MAX_KERNEL_WIDTH]),
    h.2.2.2.2 25 (by norm_num) (by norm_num [MAX_KERNEL_WIDTH])⟩
